import Mathlib

/-!
Verification of the HAR / BLE-advertising configuration headers.

Shallow embedding of the repository's C headers:
* `har_config.h` (baseline profile)     → namespace `har_config`
* `har_config_phase1.h` (phase1 profile) → namespace `har_config_phase1`
* `labels_all.h` (in-ROM label tables)   → namespace `labels_all`

Float constants (`0.6f`, `0.40f`, ...) are modelled by their exact decimal
values as rationals; C `int` is modelled by `Int`, `uint8_t`/`uint16_t`
contents by `Nat`.
-/

namespace har_config

-- Model architecture (har_config.h lines 8-11)
def HAR_INPUT_LENGTH : Nat := 100
def HAR_INPUT_CHANNELS : Nat := 3
def HAR_N_CLASSES : Nat := 12
def HAR_UNKNOWN_CLASS_ID : Nat := 12

-- Calibration parameters (lines 14-15)
def HAR_TEMPERATURE : ℚ := 0.7320
def HAR_TAU_UNKNOWN : ℚ := 0.5800

-- U/S/CCS parameters (lines 18-23)
def CCS_ALPHA : ℚ := 0.6
def CCS_BETA : ℚ := 0.4
def CCS_THETA_LOW : ℚ := 0.40
def CCS_THETA_HIGH : ℚ := 0.70
def CCS_WINDOW_SIZE : Nat := 10
def CCS_MIN_DWELL_MS : Nat := 2000

-- BLE advertising intervals in ms (lines 26-29)
def BLE_INTERVAL_QUIET : Nat := 2000
def BLE_INTERVAL_UNCERTAIN : Nat := 500
def BLE_INTERVAL_ACTIVE : Nat := 100
def BLE_INTERVAL_FALLBACK : Nat := 1000

-- Class names, 12-class internal plus the Unknown sentinel (lines 32-46)
def HAR_CLASS_NAMES : List String :=
  ["Standing", "Sitting", "Lying", "Walking", "Stairs", "Bends", "Arms",
   "Crouch", "Cycling", "Jogging", "Running", "Jump", "Unknown"]

/-- 4-class operational mapping (har_config.h lines 50-56).
Returns: 0=Locomotion, 1=Transition, 2=Stationary, 3=Unknown. -/
def map_to_4class (class_12 : Int) : Int :=
  if class_12 = 12 then 3
  else if class_12 = 3 ∨ class_12 = 8 ∨ class_12 = 9 ∨ class_12 = 10 then 0
  else if class_12 = 4 ∨ class_12 = 5 ∨ class_12 = 6 ∨ class_12 = 7 ∨ class_12 = 11 then 1
  else if class_12 = 0 ∨ class_12 = 1 ∨ class_12 = 2 then 2
  else 3

end har_config

namespace har_config_phase1

-- Model architecture (har_config_phase1.h lines 9-12)
def HAR_INPUT_LENGTH : Nat := 100
def HAR_INPUT_CHANNELS : Nat := 3
def HAR_N_CLASSES : Nat := 12
def HAR_UNKNOWN_CLASS_ID : Nat := 12

-- Calibration parameters (lines 15-16)
def HAR_TEMPERATURE : ℚ := 0.7320
def HAR_TAU_UNKNOWN : ℚ := 0.5800

-- U/S/CCS parameters (lines 19-20)
def CCS_ALPHA : ℚ := 0.6
def CCS_BETA : ℚ := 0.4

-- Phase 1 recommended thresholds (lines 25-26)
def CCS_THETA_LOW : ℚ := 0.15
def CCS_THETA_HIGH : ℚ := 0.35

def CCS_WINDOW_SIZE : Nat := 10

-- Phase 1 recommended dwell time (line 36)
def CCS_MIN_DWELL_MS : Nat := 1000

-- BLE advertising intervals in ms (lines 39-42)
def BLE_INTERVAL_QUIET : Nat := 2000
def BLE_INTERVAL_UNCERTAIN : Nat := 500
def BLE_INTERVAL_ACTIVE : Nat := 100
def BLE_INTERVAL_FALLBACK : Nat := 1000

-- Class names (lines 55-69)
def HAR_CLASS_NAMES : List String :=
  ["Standing", "Sitting", "Lying", "Walking", "Stairs", "Bends", "Arms",
   "Crouch", "Cycling", "Jogging", "Running", "Jump", "Unknown"]

/-- 4-class operational mapping (har_config_phase1.h lines 73-79).
Returns: 0=Locomotion, 1=Transition, 2=Stationary, 3=Unknown. -/
def map_to_4class (class_12 : Int) : Int :=
  if class_12 = 12 then 3
  else if class_12 = 3 ∨ class_12 = 8 ∨ class_12 = 9 ∨ class_12 = 10 then 0
  else if class_12 = 4 ∨ class_12 = 5 ∨ class_12 = 6 ∨ class_12 = 7 ∨ class_12 = 11 then 1
  else if class_12 = 0 ∨ class_12 = 1 ∨ class_12 = 2 then 2
  else 3

end har_config_phase1

namespace labels_all

-- Per-session label sequences (labels_all.h lines 12-40); uint8_t contents as Nat.
def labels_01 : List Nat := [0,0,1,1,2,2,0,1,2,0]
def nLabels_01 : Nat := labels_01.length

def labels_02 : List Nat := [0,1,2,0,1,2,0,1,2,0]
def nLabels_02 : Nat := labels_02.length

def labels_03 : List Nat := [0,0,0,1,1,1,2,2,2,0]
def nLabels_03 : Nat := labels_03.length

def labels_04 : List Nat := [0,2,1,0,2,1,0,2,1,0]
def nLabels_04 : Nat := labels_04.length

def labels_05 : List Nat := [2,2,2,1,1,0,0,0,1,2]
def nLabels_05 : Nat := labels_05.length

def labels_06 : List Nat := [1,1,0,0,2,2,1,1,0,0]
def nLabels_06 : Nat := labels_06.length

def labels_07 : List Nat := [2,1,0,2,1,0,2,1,0,2]
def nLabels_07 : Nat := labels_07.length

def labels_08 : List Nat := [0,1,0,1,2,2,1,0,2,1]
def nLabels_08 : Nat := labels_08.length

def labels_09 : List Nat := [1,0,1,0,2,1,2,0,2,1]
def nLabels_09 : Nat := labels_09.length

def labels_10 : List Nat := [2,0,2,0,1,1,0,2,1,0]
def nLabels_10 : Nat := labels_10.length

/-- Session record (labels_all.h lines 42-46). -/
structure SessionLabels where
  id : String
  seq : List Nat
  len : Nat
deriving DecidableEq

/-- Session registry (labels_all.h lines 48-59). -/
def SESSIONS : List SessionLabels :=
  [⟨"01", labels_01, nLabels_01⟩,
   ⟨"02", labels_02, nLabels_02⟩,
   ⟨"03", labels_03, nLabels_03⟩,
   ⟨"04", labels_04, nLabels_04⟩,
   ⟨"05", labels_05, nLabels_05⟩,
   ⟨"06", labels_06, nLabels_06⟩,
   ⟨"07", labels_07, nLabels_07⟩,
   ⟨"08", labels_08, nLabels_08⟩,
   ⟨"09", labels_09, nLabels_09⟩,
   ⟨"10", labels_10, nLabels_10⟩]

def NUM_SESSIONS : Nat := SESSIONS.length

/-- Modelled from the spec: the cyclic playback iterator of the Label
Playback Source (§4.1, `next(cursor)`), whose firmware implementation is
not under src/; only the in-ROM tables it replays are. The n-th call on a
session's cursor returns `seq[n mod len]`. -/
def next_label (s : SessionLabels) (n : Nat) : Nat :=
  s.seq.getD (n % s.seq.length) 0

/-- Modelled from the spec: by-id session lookup (§6.2 "Consumers access
sessions by id or by index"); the consumer code is not under src/. -/
def findById (sid : String) : Option SessionLabels :=
  SESSIONS.find? (fun s => s.id == sid)

/-- The session invariant from the spec (§3): `len ≥ 1` and
`seq[i] ∈ {0,1,2}`. -/
def sessionInvariant (s : SessionLabels) : Prop :=
  1 ≤ s.len ∧ ∀ x ∈ s.seq, x = 0 ∨ x = 1 ∨ x = 2

instance (s : SessionLabels) : Decidable (sessionInvariant s) := by
  unfold sessionInvariant; infer_instance

end labels_all

/-- The operational modes of the Mode Controller (spec §4.5). -/
inductive Mode where
  | QUIET
  | UNCERTAIN
  | ACTIVE
  | FALLBACK
deriving DecidableEq

/-- The CCS-driven target bands before dwell filtering (spec §4.5, §
glossary "Band"). -/
inductive Band where
  | Q
  | U
  | A
deriving DecidableEq

/-- Modelled from the spec: the Advertising Cadence Binder (§4.6), whose
firmware implementation is not under src/; the four interval constants it
returns are the `BLE_INTERVAL_*` defines of har_config.h (lines 26-29,
with the mode each belongs to named in the define's comment). -/
def mode_to_interval : Mode → Nat
  | Mode.QUIET => har_config.BLE_INTERVAL_QUIET
  | Mode.UNCERTAIN => har_config.BLE_INTERVAL_UNCERTAIN
  | Mode.ACTIVE => har_config.BLE_INTERVAL_ACTIVE
  | Mode.FALLBACK => har_config.BLE_INTERVAL_FALLBACK

/-- Modelled from the spec: the reverse lookup on the four distinct
intervals used to state binder round-tripping (§8 "Binder determinism"). -/
def interval_to_mode (ms : Nat) : Option Mode :=
  if ms = har_config.BLE_INTERVAL_QUIET then some Mode.QUIET
  else if ms = har_config.BLE_INTERVAL_UNCERTAIN then some Mode.UNCERTAIN
  else if ms = har_config.BLE_INTERVAL_ACTIVE then some Mode.ACTIVE
  else if ms = har_config.BLE_INTERVAL_FALLBACK then some Mode.FALLBACK
  else none

/-- Modelled from the spec: the desired-band computation of the Mode
Controller (§4.5), whose firmware implementation is not under src/; the
comparison directions are those of the spec and of the comments on the
`BLE_INTERVAL_*` defines (har_config.h lines 26-28: `CCS < theta_low`,
`theta_low <= CCS < theta_high`, `CCS >= theta_high`). -/
def desiredBand (thetaLow thetaHigh ccs : ℚ) : Band :=
  if ccs < thetaLow then Band.Q
  else if ccs < thetaHigh then Band.U
  else Band.A

/-- The non-fatal telemetry error of the taxonomy mapper (spec §7). -/
inductive HarError where
  | OutOfRangeClass
deriving DecidableEq

/-- Modelled from the spec: the taxonomy mapper as seen by its caller
(§4.2, §7), whose telemetry path is not under src/; ids outside 0..12
signal `OutOfRangeClass` for telemetry while the returned class is exactly
the one `map_to_4class` (har_config.h lines 50-56) computes. -/
def map_to_4class_reported (class_12 : Int) : Int × Option HarError :=
  (har_config.map_to_4class class_12,
   if class_12 < 0 ∨ 12 < class_12 then some HarError.OutOfRangeClass else none)

/-- C1: `map_to_4class` is a pure total function over ids 0..12: ids 0, 1
and 2 map to Stationary (2); ids 3, 8, 9 and 10 map to Locomotion (0);
ids 4, 5, 6, 7 and 11 map to Transition (1); and id 12 maps to
Unknown (3). -/
theorem map_to_4class_table :
    har_config.map_to_4class 0 = 2 ∧ har_config.map_to_4class 1 = 2 ∧
    har_config.map_to_4class 2 = 2 ∧
    har_config.map_to_4class 3 = 0 ∧ har_config.map_to_4class 8 = 0 ∧
    har_config.map_to_4class 9 = 0 ∧ har_config.map_to_4class 10 = 0 ∧
    har_config.map_to_4class 4 = 1 ∧ har_config.map_to_4class 5 = 1 ∧
    har_config.map_to_4class 6 = 1 ∧ har_config.map_to_4class 7 = 1 ∧
    har_config.map_to_4class 11 = 1 ∧
    har_config.map_to_4class 12 = 3 := by
  decide

/-- C2: for every id outside 0..12, the mapper returns Unknown (3) and
signals `OutOfRangeClass` to the caller for telemetry, without changing
the returned value. -/
theorem map_to_4class_out_of_range (id : Int) (h : id < 0 ∨ 12 < id) :
    map_to_4class_reported id = (3, some HarError.OutOfRangeClass) ∧
    (map_to_4class_reported id).1 = har_config.map_to_4class id := by
  refine ⟨?_, rfl⟩
  unfold map_to_4class_reported har_config.map_to_4class
  split_ifs <;> first | rfl | (exfalso; omega)

/-- Witness for C2 at the concrete out-of-range id 13. -/
theorem map_to_4class_out_of_range_witness :
    map_to_4class_reported 13 = (3, some HarError.OutOfRangeClass) ∧
    (map_to_4class_reported 13).1 = har_config.map_to_4class 13 :=
  map_to_4class_out_of_range 13 (by decide)

/-- C3: both supported profiles ("baseline" with theta_low=0.40,
theta_high=0.70, dwell=2000, and "phase1" with theta_low=0.15,
theta_high=0.35, dwell=1000) satisfy all stated parameter invariants:
alpha+beta=1, 0 <= theta_low < theta_high <= 1, T > 0, tau in [0,1],
window >= 1, dwell >= 0, every BLE interval > 0. -/
theorem profile_invariants :
    (har_config.CCS_THETA_LOW = 0.40 ∧ har_config.CCS_THETA_HIGH = 0.70 ∧
     har_config.CCS_MIN_DWELL_MS = 2000 ∧
     har_config_phase1.CCS_THETA_LOW = 0.15 ∧
     har_config_phase1.CCS_THETA_HIGH = 0.35 ∧
     har_config_phase1.CCS_MIN_DWELL_MS = 1000) ∧
    (har_config.CCS_ALPHA + har_config.CCS_BETA = 1 ∧
     0 ≤ har_config.CCS_THETA_LOW ∧
     har_config.CCS_THETA_LOW < har_config.CCS_THETA_HIGH ∧
     har_config.CCS_THETA_HIGH ≤ 1 ∧
     0 < har_config.HAR_TEMPERATURE ∧
     0 ≤ har_config.HAR_TAU_UNKNOWN ∧ har_config.HAR_TAU_UNKNOWN ≤ 1 ∧
     1 ≤ har_config.CCS_WINDOW_SIZE ∧ 0 ≤ har_config.CCS_MIN_DWELL_MS ∧
     0 < har_config.BLE_INTERVAL_QUIET ∧
     0 < har_config.BLE_INTERVAL_UNCERTAIN ∧
     0 < har_config.BLE_INTERVAL_ACTIVE ∧
     0 < har_config.BLE_INTERVAL_FALLBACK) ∧
    (har_config_phase1.CCS_ALPHA + har_config_phase1.CCS_BETA = 1 ∧
     0 ≤ har_config_phase1.CCS_THETA_LOW ∧
     har_config_phase1.CCS_THETA_LOW < har_config_phase1.CCS_THETA_HIGH ∧
     har_config_phase1.CCS_THETA_HIGH ≤ 1 ∧
     0 < har_config_phase1.HAR_TEMPERATURE ∧
     0 ≤ har_config_phase1.HAR_TAU_UNKNOWN ∧
     har_config_phase1.HAR_TAU_UNKNOWN ≤ 1 ∧
     1 ≤ har_config_phase1.CCS_WINDOW_SIZE ∧
     0 ≤ har_config_phase1.CCS_MIN_DWELL_MS ∧
     0 < har_config_phase1.BLE_INTERVAL_QUIET ∧
     0 < har_config_phase1.BLE_INTERVAL_UNCERTAIN ∧
     0 < har_config_phase1.BLE_INTERVAL_ACTIVE ∧
     0 < har_config_phase1.BLE_INTERVAL_FALLBACK) := by
  norm_num [har_config.CCS_ALPHA, har_config.CCS_BETA,
    har_config.CCS_THETA_LOW, har_config.CCS_THETA_HIGH,
    har_config.HAR_TEMPERATURE, har_config.HAR_TAU_UNKNOWN,
    har_config.CCS_WINDOW_SIZE, har_config.CCS_MIN_DWELL_MS,
    har_config.BLE_INTERVAL_QUIET, har_config.BLE_INTERVAL_UNCERTAIN,
    har_config.BLE_INTERVAL_ACTIVE, har_config.BLE_INTERVAL_FALLBACK,
    har_config_phase1.CCS_ALPHA, har_config_phase1.CCS_BETA,
    har_config_phase1.CCS_THETA_LOW, har_config_phase1.CCS_THETA_HIGH,
    har_config_phase1.HAR_TEMPERATURE, har_config_phase1.HAR_TAU_UNKNOWN,
    har_config_phase1.CCS_WINDOW_SIZE, har_config_phase1.CCS_MIN_DWELL_MS,
    har_config_phase1.BLE_INTERVAL_QUIET,
    har_config_phase1.BLE_INTERVAL_UNCERTAIN,
    har_config_phase1.BLE_INTERVAL_ACTIVE,
    har_config_phase1.BLE_INTERVAL_FALLBACK]

/-- C4: the advertising cadence binder maps QUIET to 2000 ms, UNCERTAIN to
500 ms, ACTIVE to 100 ms and FALLBACK to 1000 ms; the four intervals are
pairwise distinct, and composing the binder with the reverse lookup on
intervals is the identity on modes. -/
theorem binder_roundtrip :
    mode_to_interval Mode.QUIET = 2000 ∧
    mode_to_interval Mode.UNCERTAIN = 500 ∧
    mode_to_interval Mode.ACTIVE = 100 ∧
    mode_to_interval Mode.FALLBACK = 1000 ∧
    ([Mode.QUIET, Mode.UNCERTAIN, Mode.ACTIVE, Mode.FALLBACK].map
      mode_to_interval).Nodup ∧
    ∀ m : Mode, interval_to_mode (mode_to_interval m) = some m := by
  refine ⟨rfl, rfl, rfl, rfl, by decide, fun m => ?_⟩
  cases m <;> rfl

/-- C5: every session in the in-ROM label tables satisfies the session
invariant: its length is at least 1 and every element of its label
sequence is in \x7b0,1,2\x7d. -/
theorem sessions_invariant :
    ∀ s ∈ labels_all.SESSIONS, labels_all.sessionInvariant s := by
  decide

/-- Witness for C5 at the concrete session "01". -/
theorem sessions_invariant_witness :
    labels_all.sessionInvariant ⟨"01", [0,0,1,1,2,2,0,1,2,0], 10⟩ :=
  sessions_invariant _ (by decide)

/-- C6: label cyclicity: for every session s in the registry, for all
k >= 0 and 0 <= i < len, the (k*len + i)-th label produced by the cyclic
playback iterator over s equals seq[i]. -/
theorem label_cyclicity :
    ∀ s ∈ labels_all.SESSIONS, ∀ (k i : Nat), i < s.seq.length →
      labels_all.next_label s (k * s.seq.length + i) = s.seq.getD i 0 := by
  intro s _ k i hi
  unfold labels_all.next_label
  rw [Nat.mul_comm, Nat.mul_add_mod, Nat.mod_eq_of_lt hi]

/-- Witness for C6: session "01", k = 2, i = 3 (the 23rd label replayed
is seq[3]). -/
theorem label_cyclicity_witness :
    labels_all.next_label ⟨"01", [0,0,1,1,2,2,0,1,2,0], 10⟩
        (2 * ([0,0,1,1,2,2,0,1,2,0] : List Nat).length + 3)
      = ([0,0,1,1,2,2,0,1,2,0] : List Nat).getD 3 0 :=
  label_cyclicity ⟨"01", [0,0,1,1,2,2,0,1,2,0], 10⟩ (by decide) 2 3 (by decide)

/-- C7: the desired band partitions the CCS axis: CCS < theta_low gives Q,
theta_low <= CCS < theta_high gives U, CCS >= theta_high gives A; in
particular the band at CCS = theta_low is U and at CCS = theta_high is A. -/
theorem desired_band_partition (tl th ccs : ℚ) (h : tl < th) :
    (ccs < tl → desiredBand tl th ccs = Band.Q) ∧
    (tl ≤ ccs → ccs < th → desiredBand tl th ccs = Band.U) ∧
    (th ≤ ccs → desiredBand tl th ccs = Band.A) ∧
    desiredBand tl th tl = Band.U ∧
    desiredBand tl th th = Band.A := by
  unfold desiredBand
  refine ⟨?_, ?_, ?_, ?_, ?_⟩ <;> intros <;> split_ifs <;>
    first | rfl | (exfalso; linarith)

/-- Witness for C7 at the baseline profile thresholds: the band at
CCS = theta_low is UNCERTAIN. -/
theorem desired_band_partition_witness :
    desiredBand har_config.CCS_THETA_LOW har_config.CCS_THETA_HIGH
      har_config.CCS_THETA_LOW = Band.U :=
  (desired_band_partition har_config.CCS_THETA_LOW har_config.CCS_THETA_HIGH
    har_config.CCS_THETA_LOW
    (by norm_num [har_config.CCS_THETA_LOW, har_config.CCS_THETA_HIGH])).2.2.2.1

/-- C8: the session registry lists all sessions in order with two-digit
ids "01" through "10", and every session is accessible both by its id and
by its index. -/
theorem sessions_registry :
    labels_all.SESSIONS.map (fun s => s.id) =
      ["01","02","03","04","05","06","07","08","09","10"] ∧
    labels_all.NUM_SESSIONS = 10 ∧
    ∀ j : Fin 10,
      labels_all.findById ((labels_all.SESSIONS.getD j ⟨"", [], 0⟩).id) =
        some (labels_all.SESSIONS.getD j ⟨"", [], 0⟩) := by
  decide

/-- C9: the two configuration headers define extensionally equal
`map_to_4class` functions and identical model, calibration, weight,
window and BLE-interval constants; they differ only in theta_low,
theta_high and the minimum dwell time. -/
theorem configs_agree :
    (∀ id : Int,
      har_config.map_to_4class id = har_config_phase1.map_to_4class id) ∧
    har_config.HAR_INPUT_LENGTH = har_config_phase1.HAR_INPUT_LENGTH ∧
    har_config.HAR_INPUT_CHANNELS = har_config_phase1.HAR_INPUT_CHANNELS ∧
    har_config.HAR_N_CLASSES = har_config_phase1.HAR_N_CLASSES ∧
    har_config.HAR_UNKNOWN_CLASS_ID = har_config_phase1.HAR_UNKNOWN_CLASS_ID ∧
    har_config.HAR_TEMPERATURE = har_config_phase1.HAR_TEMPERATURE ∧
    har_config.HAR_TAU_UNKNOWN = har_config_phase1.HAR_TAU_UNKNOWN ∧
    har_config.CCS_ALPHA = har_config_phase1.CCS_ALPHA ∧
    har_config.CCS_BETA = har_config_phase1.CCS_BETA ∧
    har_config.CCS_WINDOW_SIZE = har_config_phase1.CCS_WINDOW_SIZE ∧
    har_config.BLE_INTERVAL_QUIET = har_config_phase1.BLE_INTERVAL_QUIET ∧
    har_config.BLE_INTERVAL_UNCERTAIN
      = har_config_phase1.BLE_INTERVAL_UNCERTAIN ∧
    har_config.BLE_INTERVAL_ACTIVE = har_config_phase1.BLE_INTERVAL_ACTIVE ∧
    har_config.BLE_INTERVAL_FALLBACK
      = har_config_phase1.BLE_INTERVAL_FALLBACK ∧
    har_config.CCS_THETA_LOW ≠ har_config_phase1.CCS_THETA_LOW ∧
    har_config.CCS_THETA_HIGH ≠ har_config_phase1.CCS_THETA_HIGH ∧
    har_config.CCS_MIN_DWELL_MS ≠ har_config_phase1.CCS_MIN_DWELL_MS := by
  refine ⟨fun id => rfl, rfl, rfl, rfl, rfl, rfl, rfl, rfl, rfl, rfl, rfl,
    rfl, rfl, rfl, ?_, ?_, ?_⟩ <;>
    norm_num [har_config.CCS_THETA_LOW, har_config_phase1.CCS_THETA_LOW,
      har_config.CCS_THETA_HIGH, har_config_phase1.CCS_THETA_HIGH,
      har_config.CCS_MIN_DWELL_MS, har_config_phase1.CCS_MIN_DWELL_MS]

/-- C10: `map_to_4class` returns Unknown (3) if and only if its input is
outside 0..11; for every id in 0..11 the result is in \x7b0,1,2\x7d. -/
theorem map_to_4class_unknown_iff (id : Int) :
    (har_config.map_to_4class id = 3 ↔ (id < 0 ∨ 12 ≤ id)) ∧
    (0 ≤ id → id ≤ 11 →
      har_config.map_to_4class id = 0 ∨ har_config.map_to_4class id = 1 ∨
        har_config.map_to_4class id = 2) := by
  unfold har_config.map_to_4class
  constructor
  · split_ifs <;> omega
  · intro h1 h2
    split_ifs <;> omega

/-- Witness for C10 at the concrete in-range id 5 (a known class is not
mapped to Unknown). -/
theorem map_to_4class_unknown_iff_witness :
    har_config.map_to_4class 5 = 0 ∨ har_config.map_to_4class 5 = 1 ∨
      har_config.map_to_4class 5 = 2 :=
  (map_to_4class_unknown_iff 5).2 (by decide) (by decide)
